import Mathlib

/-!
# Shallow embedding of the ad-monitor core (src/main.py)

Timestamps are modelled as exact rationals (seconds); `datetime.utcnow()`
becomes an explicit `now : ℚ` parameter.  Database rows become records in
lists; SQLAlchemy queries become list filters; endpoint JSON responses are
mirrored literally as a small JSON value type so that presence or absence
of a key in a response dict is observable.  Fallible endpoints return
`Except ApiError`.
-/

namespace AdMonitor

/-- JSON-like values, mirroring the Python dicts the endpoints return.
A key that a branch does not put into its dict is simply absent from the
`obj` field list. -/
inductive JVal where
  | null
  | bool (b : Bool)
  | num (q : ℚ)
  | str (s : String)
  | obj (fields : List (String × JVal))
deriving Repr

/-- Look a key up in a JSON object (`none` when the key is absent or the
value is not an object). -/
def JVal.getField (v : JVal) (k : String) : Option JVal :=
  match v with
  | .obj fs => fs.lookup k
  | _ => none

/-- Errors the endpoints can surface.  The code only ever raises
`HTTPException(404)` (NotFound); `invalidRange` is the spec's second error
kind, included so that "fails with InvalidRange" is expressible. -/
inductive ApiError where
  | notFound (detail : String)
  | invalidRange (detail : String)
deriving Repr, DecidableEq

/-- `screens` table row (src/main.py, class Screen). -/
structure Screen where
  id : Nat
  name : String
  company_id : Nat
  last_heartbeat_at : Option ℚ
  status : String
deriving Repr, DecidableEq

/-- `ads` table row (src/main.py, class Ad). -/
structure Ad where
  id : Nat
  name : String
  owner_company_id : Nat
  file_url : Option String
  duration_sec : Option Nat
deriving Repr, DecidableEq

/-- `heartbeats` table row (src/main.py, class Heartbeat). -/
structure Heartbeat where
  screen_id : Nat
  timestamp : ℚ
  current_ad_id : Option Nat
  player_status : String
deriving Repr, DecidableEq

/-- `playback_events` table row (src/main.py, class PlaybackEvent).
`started_at`/`ended_at` are nullable DateTime columns. -/
structure PlaybackEvent where
  screen_id : Nat
  ad_id : Nat
  started_at : Option ℚ
  ended_at : Option ℚ
  status : String
deriving Repr, DecidableEq

/-- The database state: the four tables the core reads and writes.
Lists are in insertion (rowid) order; `db.add` appends. -/
structure DB where
  screens : List Screen
  ads : List Ad
  heartbeats : List Heartbeat
  playback_events : List PlaybackEvent
deriving Repr, DecidableEq

/-- `db.query(Screen).filter(Screen.id == sid).first()`. -/
def findScreen (db : DB) (sid : Nat) : Option Screen :=
  db.screens.find? (fun s => s.id == sid)

/-- `db.query(Ad).filter(Ad.id == aid).first()`. -/
def findAd (db : DB) (aid : Nat) : Option Ad :=
  db.ads.find? (fun a => a.id == aid)

/-- Request body `HeartbeatIn` (src/main.py lines 174-177): the client can
send only a screen id, an optional current-ad id and an optional player
status — there is no timestamp field. -/
structure HeartbeatIn where
  screen_id : Nat
  current_ad_id : Option Nat
  player_status : Option String
deriving Repr, DecidableEq

/-- Request body `PlaybackEventIn` (src/main.py lines 180-185):
`started_at` and `ended_at` are required datetimes. -/
structure PlaybackEventIn where
  screen_id : Nat
  ad_id : Nat
  started_at : ℚ
  ended_at : ℚ
  status : Option String
deriving Repr, DecidableEq

/-- Python `x or default` for an optional string: `None` and the empty
string are falsy and replaced by the default. -/
def orDefault (x : Option String) (d : String) : String :=
  match x with
  | none => d
  | some s => if s = "" then d else s

/-- Mutating the first screen whose id matches (SQLAlchemy `first()`
returns one row object; assignment mutates that row only). -/
def updateFirstScreen (l : List Screen) (sid : Nat) (f : Screen → Screen) :
    List Screen :=
  match l with
  | [] => []
  | s :: rest =>
    if s.id == sid then f s :: rest else s :: updateFirstScreen rest sid f

/-- POST `/api/events/heartbeat` (src/main.py lines 302-324).  Looks the
screen up (404 if absent), takes a single server-clock reading `now_ts`,
appends a Heartbeat stamped with it, sets the screen's cached
`last_heartbeat_at` to it and its cached status to "online", and returns
it to the caller.  Returns the new DB state and the returned timestamp. -/
def heartbeat (db : DB) (now : ℚ) (hb : HeartbeatIn) :
    Except ApiError (DB × ℚ) :=
  match findScreen db hb.screen_id with
  | none => .error (.notFound "Screen not found")
  | some _ =>
    let now_ts := now
    let new_hb : Heartbeat :=
      { screen_id := hb.screen_id
        timestamp := now_ts
        current_ad_id := hb.current_ad_id
        player_status := orDefault hb.player_status "ok" }
    let screens :=
      updateFirstScreen db.screens hb.screen_id
        (fun s => { s with last_heartbeat_at := some now_ts, status := "online" })
    .ok ({ db with heartbeats := db.heartbeats ++ [new_hb], screens := screens },
         now_ts)

/-- POST `/api/events/playback` (src/main.py lines 328-349).  Looks up the
screen then the ad (404 if either is absent) and appends the event exactly
as given; no validation relates `started_at` and `ended_at`. -/
def playback_event (db : DB) (ev : PlaybackEventIn) : Except ApiError DB :=
  match findScreen db ev.screen_id with
  | none => .error (.notFound "Screen not found")
  | some _ =>
    match findAd db ev.ad_id with
    | none => .error (.notFound "Ad not found")
    | some _ =>
      let new_ev : PlaybackEvent :=
        { screen_id := ev.screen_id
          ad_id := ev.ad_id
          started_at := some ev.started_at
          ended_at := some ev.ended_at
          status := orDefault ev.status "success" }
      .ok { db with playback_events := db.playback_events ++ [new_ev] }

/-- Latest heartbeat of a screen:
`db.query(Heartbeat).filter(screen_id).order_by(timestamp.desc()).first()`.
Maximum timestamp; ties go to the later-inserted row. -/
def latestHeartbeat (db : DB) (sid : Nat) : Option Heartbeat :=
  (db.heartbeats.filter (fun h => h.screen_id == sid)).foldl
    (fun acc h =>
      match acc with
      | none => some h
      | some b => if b.timestamp ≤ h.timestamp then some h else some b)
    none

/-- The online threshold in seconds: src/main.py line 379 hard-codes 120. -/
def ONLINE_THRESHOLD : ℚ := 120

/-- GET `/api/companies/{company_id}/screens/{screen_id}/current-ad`
(src/main.py lines 353-410).  The response dicts are mirrored key for
key, so a key a branch leaves out is genuinely absent from the object. -/
def current_ad_for_company (db : DB) (now : ℚ) (company_id screen_id : Nat) :
    Except ApiError JVal :=
  match findScreen db screen_id with
  | none => .error (.notFound "Screen not found")
  | some _ =>
    match latestHeartbeat db screen_id with
    | none =>
      .ok (.obj [("screen_id", .num screen_id),
                 ("online", .bool false),
                 ("current_ad", .null),
                 ("message", .str "No heartbeats yet")])
    | some hb =>
      let online : Bool := decide (now - hb.timestamp ≤ ONLINE_THRESHOLD)
      match hb.current_ad_id with
      | none =>
        .ok (.obj [("screen_id", .num screen_id),
                   ("online", .bool online),
                   ("current_ad", .null),
                   ("message", .str "No ad currently reported")])
      | some aid =>
        match findAd db aid with
        | none =>
          .ok (.obj [("screen_id", .num screen_id),
                     ("online", .bool online),
                     ("current_ad", .null),
                     ("message", .str "Unknown ad")])
        | some ad =>
          let is_yours : Bool := ad.owner_company_id == company_id
          .ok (.obj [("screen_id", .num screen_id),
                     ("online", .bool online),
                     ("current_ad",
                      .obj [("id", .num ad.id),
                            ("name", .str ad.name),
                            ("owner_company_id", .num ad.owner_company_id),
                            ("is_yours", .bool is_yours)]),
                     ("last_heartbeat_at", .num hb.timestamp)])

/-- Python `round(x, 2)`: scale by 100 and round half to even (the exact
semantics of `round` on the mathematical value). -/
def round2 (q : ℚ) : ℚ :=
  ((if q * 100 - (⌊q * 100⌋ : ℚ) < 1 / 2 then ⌊q * 100⌋
    else if 1 / 2 < q * 100 - (⌊q * 100⌋ : ℚ) then ⌊q * 100⌋ + 1
    else if ⌊q * 100⌋ % 2 = 0 then ⌊q * 100⌋ else ⌊q * 100⌋ + 1 : ℤ) : ℚ) / 100

/-- Heartbeats of a screen with `window_start ≤ timestamp ≤ now`
(the query repeated at src/main.py lines 2870-2888). -/
def heartbeatsInWindow (db : DB) (sid : Nat) (wstart wend : ℚ) :
    List Heartbeat :=
  db.heartbeats.filter
    (fun h => h.screen_id == sid && decide (wstart ≤ h.timestamp)
        && decide (h.timestamp ≤ wend))

/-- Minimum of a nonempty list of timestamps (the `order_by asc .first()`
row's timestamp). -/
def minTs (t : ℚ) (ts : List ℚ) : ℚ := ts.foldl min t

/-- Maximum of a nonempty list of timestamps (the `order_by desc .first()`
row's timestamp). -/
def maxTs (t : ℚ) (ts : List ℚ) : ℚ := ts.foldl max t

/-- The unclamped-then-clamped uptime percentage of one screen, before
rounding (src/main.py lines 2869-2896): 0.0 when the window holds no
heartbeat, else `max(0, min(100, observed / total * 100))` with
`observed` the span between the first and last in-window heartbeats and
`total = window_minutes * 60`. -/
def uptime_percent_raw (db : DB) (sid : Nat) (window_minutes : ℕ) (now : ℚ) :
    ℚ :=
  match (heartbeatsInWindow db sid (now - window_minutes * 60) now).map
      (·.timestamp) with
  | [] => 0
  | t :: ts =>
    max 0 (min 100 ((maxTs t ts - minTs t ts) / (window_minutes * 60) * 100))

/-- The per-screen `uptime_percent` figure the endpoint reports
(src/main.py line 2902): the raw percentage rounded to 2 decimals. -/
def uptime_percent (db : DB) (sid : Nat) (window_minutes : ℕ) (now : ℚ) :
    ℚ :=
  round2 (uptime_percent_raw db sid window_minutes now)

/-- GET `/api/metrics/uptime` (src/main.py lines 2856-2905): one entry per
screen. -/
def uptime_metrics (db : DB) (window_minutes : ℕ) (now : ℚ) : List JVal :=
  db.screens.map (fun s =>
    .obj [("screen_id", .num s.id),
          ("screen_name", .str s.name),
          ("window_minutes", .num window_minutes),
          ("uptime_percent", .num (uptime_percent db s.id window_minutes now))])

/-- Does a playback event's `started_at` fall in `[wstart, wend)`?  A SQL
comparison against a NULL `started_at` is not satisfied, so null-start
events never match. -/
def startedInWindow (e : PlaybackEvent) (wstart wend : ℚ) : Bool :=
  match e.started_at with
  | some t => decide (wstart ≤ t) && decide (t < wend)
  | none => false

/-- Count of an ad's playback events whose `started_at` falls in the
half-open window, regardless of status (the query at src/main.py lines
425-433). -/
def plays_count (db : DB) (ad_id : Nat) (wstart wend : ℚ) : ℕ :=
  (db.playback_events.filter
    (fun e => e.ad_id == ad_id && startedInWindow e wstart wend)).length

/-- Seconds since the Unix epoch of the start of the UTC day containing
`now` (`datetime(now.year, now.month, now.day)`, src/main.py line 422). -/
def start_of_day (now : ℚ) : ℚ := (⌊now / 86400⌋ : ℚ) * 86400

/-- GET `/api/ads/{ad_id}/metrics/today` (src/main.py lines 414-440). -/
def ad_metrics_today (db : DB) (ad_id : Nat) (now : ℚ) :
    Except ApiError JVal :=
  match findAd db ad_id with
  | none => .error (.notFound "Ad not found")
  | some ad =>
    let sod := start_of_day now
    let eod := sod + 86400
    .ok (.obj [("ad_id", .num ad_id),
               ("name", .str ad.name),
               ("plays_today", .num (plays_count db ad_id sod eod)),
               ("day_start_utc", .num sod)])

/-- `(e.ended_at - e.started_at).total_seconds()` when both timestamps are
present (`if e.started_at and e.ended_at`), `none` otherwise. -/
def eventDuration (e : PlaybackEvent) : Option ℚ :=
  match e.started_at, e.ended_at with
  | some s, some en => some (en - s)
  | _, _ => none

/-- The dashboard's total-play-seconds aggregate (src/main.py lines
1779-1792 for the day window, 1794-1808 for the month window): fetch the
events of the given screens whose `started_at` lies in `[wstart, wend)`,
then sum `(ended_at - started_at).total_seconds()` over those that have
both timestamps. -/
def total_play_seconds (db : DB) (screen_ids : List Nat) (wstart wend : ℚ) :
    ℚ :=
  ((db.playback_events.filter
      (fun e => screen_ids.contains e.screen_id
          && startedInWindow e wstart wend)).filterMap eventDuration).sum

/-- An event whose two timestamps, when both present, are in the right
order.  Events with a missing timestamp are vacuously well-ranged. -/
def wellRanged (e : PlaybackEvent) : Bool :=
  match e.started_at, e.ended_at with
  | some s, some en => decide (s ≤ en)
  | _, _ => true

/-- Rewrite every stored playback event's status (used to state that an
aggregate ignores status values). -/
def setStatuses (f : PlaybackEvent → String) (db : DB) : DB :=
  { db with playback_events :=
      db.playback_events.map (fun e => { e with status := f e }) }

/-- Look up a key inside an object stored under another key. -/
def nestedField (r : JVal) (k1 k2 : String) : Option JVal :=
  (r.getField k1).bind (fun c => c.getField k2)

/-! ## General lemmas -/

theorem round2_nonneg (q : ℚ) (h : 0 ≤ q) : 0 ≤ round2 q := by
  have hf : (0 : ℤ) ≤ ⌊q * 100⌋ := Int.floor_nonneg.2 (by positivity)
  unfold round2
  split_ifs <;>
    refine div_nonneg ?_ (by norm_num)
  · exact_mod_cast hf
  · exact_mod_cast (show (0 : ℤ) ≤ ⌊q * 100⌋ + 1 by omega)
  · exact_mod_cast hf
  · exact_mod_cast (show (0 : ℤ) ≤ ⌊q * 100⌋ + 1 by omega)

theorem round2_le_hundred (q : ℚ) (h : q ≤ 100) : round2 q ≤ 100 := by
  have hx : q * 100 ≤ 10000 := by linarith
  have hceil : ⌈q * 100⌉ ≤ 10000 := Int.ceil_le.2 (by exact_mod_cast hx)
  have hfl : (⌊q * 100⌋ : ℚ) ≤ q * 100 := Int.floor_le _
  have hfloor : ⌊q * 100⌋ ≤ 10000 := by
    have := Int.floor_le_floor hx
    simpa using this
  unfold round2
  split_ifs with h1 h2 h3
  · rw [div_le_iff₀ (by norm_num : (0 : ℚ) < 100)]
    have : (⌊q * 100⌋ : ℚ) ≤ 10000 := by exact_mod_cast hfloor
    linarith
  · have hlt : (⌊q * 100⌋ : ℚ) < q * 100 := by linarith
    have hlt' : ⌊q * 100⌋ + 1 ≤ ⌈q * 100⌉ :=
      Int.add_one_le_ceil_iff.2 hlt
    rw [div_le_iff₀ (by norm_num : (0 : ℚ) < 100)]
    have : ((⌊q * 100⌋ + 1 : ℤ) : ℚ) ≤ 10000 := by exact_mod_cast le_trans hlt' hceil
    push_cast at this ⊢
    linarith
  · rw [div_le_iff₀ (by norm_num : (0 : ℚ) < 100)]
    have : (⌊q * 100⌋ : ℚ) ≤ 10000 := by exact_mod_cast hfloor
    linarith
  · have hhalf : (1 : ℚ) / 2 ≤ q * 100 - ⌊q * 100⌋ := not_lt.1 h1
    have hlt : (⌊q * 100⌋ : ℚ) < q * 100 := by linarith
    have hlt' : ⌊q * 100⌋ + 1 ≤ ⌈q * 100⌉ :=
      Int.add_one_le_ceil_iff.2 hlt
    rw [div_le_iff₀ (by norm_num : (0 : ℚ) < 100)]
    have : ((⌊q * 100⌋ + 1 : ℤ) : ℚ) ≤ 10000 := by exact_mod_cast le_trans hlt' hceil
    push_cast at this ⊢
    linarith

theorem eventDuration_nonneg (e : PlaybackEvent) (d : ℚ)
    (he : wellRanged e = true) (hdur : eventDuration e = some d) : 0 ≤ d := by
  unfold eventDuration at hdur
  unfold wellRanged at he
  cases hs : e.started_at with
  | none => rw [hs] at hdur; exact absurd hdur (by simp)
  | some s =>
    cases hen : e.ended_at with
    | none => rw [hs, hen] at hdur; exact absurd hdur (by simp)
    | some en =>
      rw [hs, hen] at hdur he
      simp only [Option.some.injEq] at hdur
      simp only [decide_eq_true_eq] at he
      subst hdur
      linarith

theorem sum_filterMap_duration_nonneg (l : List PlaybackEvent)
    (p : PlaybackEvent → Bool) (hr : ∀ e ∈ l, wellRanged e = true) :
    0 ≤ ((l.filter p).filterMap eventDuration).sum := by
  induction l with
  | nil => simp
  | cons e rest ih =>
    have he : wellRanged e = true := hr e (by simp)
    have hrest : ∀ x ∈ rest, wellRanged x = true := fun x hx => hr x (by simp [hx])
    by_cases hp : p e = true
    · rw [List.filter_cons_of_pos hp]
      cases hd : eventDuration e with
      | none => rw [List.filterMap_cons_none hd]; exact ih hrest
      | some d =>
        rw [List.filterMap_cons_some hd, List.sum_cons]
        exact add_nonneg (eventDuration_nonneg e d he hd) (ih hrest)
    · rw [List.filter_cons_of_neg hp]
      exact ih hrest

theorem sum_filterMap_duration_eq_map_sum (l : List PlaybackEvent)
    (p : PlaybackEvent → Bool) :
    ((l.filter p).filterMap eventDuration).sum =
      (l.map (fun e =>
        match eventDuration e with
        | some d => if p e then d else 0
        | none => 0)).sum := by
  induction l with
  | nil => rfl
  | cons e rest ih =>
    rw [List.map_cons, List.sum_cons, ← ih]
    by_cases hp : p e = true
    · rw [List.filter_cons_of_pos hp]
      cases hd : eventDuration e with
      | none => rw [List.filterMap_cons_none hd]; simp
      | some d => rw [List.filterMap_cons_some hd, List.sum_cons]; simp [hp]
    · rw [List.filter_cons_of_neg hp]
      cases hd : eventDuration e with
      | none => simp
      | some d => simp [hp]

/-! ## Claims -/

/-- C1, counterexample: the playback ingestion request with
`started_at = 10`, `ended_at = 0` (so `ended_at < started_at`), against a
database where screen 1 and ad 1 exist, does not fail: it returns success
and appends the PlaybackEvent.  This contradicts "fails with InvalidRange
and records no PlaybackEvent". -/
theorem playback_invalid_range_accepted_cex :
    (PlaybackEventIn.mk 1 1 10 0 none).ended_at <
        (PlaybackEventIn.mk 1 1 10 0 none).started_at ∧
    playback_event
        ⟨[⟨1, "S1", 1, none, "offline"⟩], [⟨1, "A1", 5, none, none⟩], [], []⟩
        ⟨1, 1, 10, 0, none⟩ =
      .ok ⟨[⟨1, "S1", 1, none, "offline"⟩], [⟨1, "A1", 5, none, none⟩], [],
           [⟨1, 1, some 10, some 0, "success"⟩]⟩ :=
  ⟨by norm_num, rfl⟩

/-- C1 (amended): playback ingestion performs no range validation at all:
whenever the referenced screen and ad exist, the request succeeds and the
PlaybackEvent is recorded with exactly the given timestamps — also when
`ended_at < started_at`.  The range is neither rejected (`InvalidRange`
does not occur) nor silently corrected. -/
theorem playback_no_range_validation (db : DB) (ev : PlaybackEventIn)
    (scr : Screen) (ad : Ad)
    (hs : findScreen db ev.screen_id = some scr)
    (ha : findAd db ev.ad_id = some ad) :
    playback_event db ev =
      .ok { db with playback_events := db.playback_events ++
        [{ screen_id := ev.screen_id, ad_id := ev.ad_id,
           started_at := some ev.started_at, ended_at := some ev.ended_at,
           status := orDefault ev.status "success" }] } := by
  unfold playback_event
  rw [hs, ha]

/-- C1 witness: a concrete invalid-range request (`ended_at = 20 <
50 = started_at`) on which `playback_no_range_validation` applies. -/
theorem playback_no_range_validation_witness :
    playback_event
        ⟨[⟨2, "S2", 1, none, "offline"⟩], [⟨3, "A3", 9, none, none⟩], [], []⟩
        ⟨2, 3, 50, 20, none⟩ =
      .ok ⟨[⟨2, "S2", 1, none, "offline"⟩], [⟨3, "A3", 9, none, none⟩], [],
           [⟨2, 3, some 50, some 20, "success"⟩]⟩ :=
  playback_no_range_validation
    ⟨[⟨2, "S2", 1, none, "offline"⟩], [⟨3, "A3", 9, none, none⟩], [], []⟩
    ⟨2, 3, 50, 20, none⟩ ⟨2, "S2", 1, none, "offline"⟩ ⟨3, "A3", 9, none, none⟩
    rfl rfl

/-- C2, counterexample: the total-play-seconds aggregate can be negative.
Starting from a database holding screen 1 and ad 1, the ingestion endpoint
itself accepts an event with `started_at = 10`, `ended_at = 0`, and the
aggregate over screen 1 for the window `[0, 86400)` then evaluates to
`-10 < 0`, contradicting "the result is never negative". -/
theorem total_play_seconds_negative_cex :
    playback_event
        ⟨[⟨1, "S1", 1, none, "offline"⟩], [⟨1, "A1", 5, none, none⟩], [], []⟩
        ⟨1, 1, 10, 0, none⟩ =
      .ok ⟨[⟨1, "S1", 1, none, "offline"⟩], [⟨1, "A1", 5, none, none⟩], [],
           [⟨1, 1, some 10, some 0, "success"⟩]⟩ ∧
    total_play_seconds
        ⟨[⟨1, "S1", 1, none, "offline"⟩], [⟨1, "A1", 5, none, none⟩], [],
         [⟨1, 1, some 10, some 0, "success"⟩]⟩ [1] 0 86400 < 0 := by
  constructor
  · rfl
  · norm_num [total_play_seconds, startedInWindow, eventDuration,
      List.filterMap_cons]

/-- C2 (amended): for every set of screens and every window, the
total-play-seconds aggregate equals the sum of `ended_at - started_at`
over the PlaybackEvents of those screens whose `started_at` lies in the
window, an event missing either timestamp contributes nothing (appending
such an event never changes the aggregate, and nothing raises), and the
result is nonnegative provided every stored event has
`started_at ≤ ended_at` — it can be negative otherwise, because ingestion
does not reject `ended_at < started_at`. -/
theorem total_play_seconds_spec (db : DB) (screen_ids : List Nat)
    (wstart wend : ℚ) :
    (total_play_seconds db screen_ids wstart wend =
      (db.playback_events.map (fun e =>
        match eventDuration e with
        | some d =>
          if screen_ids.contains e.screen_id && startedInWindow e wstart wend
          then d else 0
        | none => 0)).sum) ∧
    (∀ e : PlaybackEvent, e.started_at = none ∨ e.ended_at = none →
      total_play_seconds
          { db with playback_events := db.playback_events ++ [e] }
          screen_ids wstart wend =
        total_play_seconds db screen_ids wstart wend) ∧
    ((∀ e ∈ db.playback_events, wellRanged e = true) →
      0 ≤ total_play_seconds db screen_ids wstart wend) := by
  refine ⟨?_, ?_, ?_⟩
  · exact sum_filterMap_duration_eq_map_sum db.playback_events _
  · intro e he
    unfold total_play_seconds
    rw [List.filter_append, List.filterMap_append, List.sum_append]
    rcases he with h | h
    · rw [List.filter_cons, List.filter_nil]
      have : startedInWindow e wstart wend = false := by
        unfold startedInWindow; rw [h]
      rw [this]
      simp
    · rcases hs : e.started_at with _ | s
      · rw [List.filter_cons, List.filter_nil]
        have : startedInWindow e wstart wend = false := by
          unfold startedInWindow; rw [hs]
        rw [this]
        simp
      · have : eventDuration e = none := by
          unfold eventDuration; rw [hs, h]
        rw [List.filter_cons, List.filter_nil]
        rcases hb : (screen_ids.contains e.screen_id
            && startedInWindow e wstart wend) with _ | _
        · simp
        · simp [List.filterMap_cons, this]
  · intro hr
    exact sum_filterMap_duration_nonneg db.playback_events _ hr

/-- C2 witness: a concrete database holding one well-ranged event and one
event with a missing end timestamp, on which `total_play_seconds_spec`
yields nonnegativity of the aggregate. -/
theorem total_play_seconds_spec_witness :
    0 ≤ total_play_seconds
        ⟨[⟨1, "S1", 1, none, "offline"⟩], [⟨1, "A1", 5, none, none⟩], [],
         [⟨1, 1, some 5, some 15, "success"⟩, ⟨1, 1, some 20, none, "failure"⟩]⟩
        [1] 0 86400 :=
  (total_play_seconds_spec
      ⟨[⟨1, "S1", 1, none, "offline"⟩], [⟨1, "A1", 5, none, none⟩], [],
       [⟨1, 1, some 5, some 15, "success"⟩, ⟨1, 1, some 20, none, "failure"⟩]⟩
      [1] 0 86400).2.2 (by
    intro e he
    simp only [List.mem_cons, List.not_mem_nil, or_false] at he
    rcases he with h | h <;> subst h <;> norm_num [wellRanged])

/-- C9: heartbeat ingestion fails exactly when the referenced screen does
not exist, playback ingestion fails exactly when the referenced screen or
ad does not exist, and every failure is a `NotFound` error.  In the
embedding a failing call returns only the error — mirroring the code,
which raises `HTTPException(404)` before any `db.add`/`commit` — so no
Heartbeat or PlaybackEvent is appended and no screen state changes on
failure. -/
theorem ingestion_not_found_iff (db : DB) (now : ℚ) (hb : HeartbeatIn)
    (ev : PlaybackEventIn) :
    ((∃ err, heartbeat db now hb = .error err) ↔
      findScreen db hb.screen_id = none) ∧
    (∀ err, heartbeat db now hb = .error err →
      err = .notFound "Screen not found") ∧
    ((∃ err, playback_event db ev = .error err) ↔
      (findScreen db ev.screen_id = none ∨ findAd db ev.ad_id = none)) ∧
    (∀ err, playback_event db ev = .error err →
      err = .notFound "Screen not found" ∨ err = .notFound "Ad not found") := by
  refine ⟨?_, ?_, ?_, ?_⟩
  · unfold heartbeat
    cases h : findScreen db hb.screen_id <;> simp [h]
  · unfold heartbeat
    cases h : findScreen db hb.screen_id <;> simp [h]
  · unfold playback_event
    cases h : findScreen db ev.screen_id <;>
      cases h2 : findAd db ev.ad_id <;> simp [h, h2]
  · unfold playback_event
    cases h : findScreen db ev.screen_id <;>
      cases h2 : findAd db ev.ad_id <;> simp [h, h2]

/-- C10: a successful heartbeat ingestion stores, caches and returns one
single server-clock reading: the appended Heartbeat's timestamp, the
screen's updated cached `last_heartbeat_at` and the returned timestamp
are all the `now` the server read during the call (the request body has no
timestamp field, so the client cannot backdate it), and the screen's
cached status is unconditionally set to "online".  Nothing else in the
database changes. -/
theorem heartbeat_server_clock (db db2 : DB) (now ts : ℚ) (hb : HeartbeatIn)
    (h : heartbeat db now hb = .ok (db2, ts)) :
    ts = now ∧
    db2.heartbeats = db.heartbeats ++
      [{ screen_id := hb.screen_id, timestamp := now,
         current_ad_id := hb.current_ad_id,
         player_status := orDefault hb.player_status "ok" }] ∧
    db2.screens = updateFirstScreen db.screens hb.screen_id
      (fun s => { s with last_heartbeat_at := some now, status := "online" }) ∧
    db2.ads = db.ads ∧ db2.playback_events = db.playback_events := by
  unfold heartbeat at h
  cases hf : findScreen db hb.screen_id with
  | none => rw [hf] at h; exact absurd h (by simp)
  | some scr =>
    rw [hf] at h
    simp only [Except.ok.injEq, Prod.mk.injEq] at h
    obtain ⟨hdb, hts⟩ := h
    subst hdb
    exact ⟨hts.symm, rfl, rfl, rfl, rfl⟩

/-- C10 witness: a concrete heartbeat for screen 7 at server time 42:
the call succeeds and `heartbeat_server_clock` applies — the appended
record carries timestamp 42. -/
theorem heartbeat_server_clock_witness :
    heartbeat ⟨[⟨7, "S7", 1, none, "offline"⟩], [], [], []⟩ 42 ⟨7, some 3, none⟩ =
      .ok (⟨[⟨7, "S7", 1, some 42, "online"⟩], [],
            [⟨7, 42, some 3, "ok"⟩], []⟩, 42) ∧
    (DB.mk [⟨7, "S7", 1, some 42, "online"⟩] [] [⟨7, 42, some 3, "ok"⟩] []).heartbeats =
      (DB.mk [⟨7, "S7", 1, none, "offline"⟩] [] [] []).heartbeats ++
        [{ screen_id := 7, timestamp := 42, current_ad_id := some 3,
           player_status := orDefault none "ok" }] :=
  ⟨rfl,
   (heartbeat_server_clock ⟨[⟨7, "S7", 1, none, "offline"⟩], [], [], []⟩
      ⟨[⟨7, "S7", 1, some 42, "online"⟩], [], [⟨7, 42, some 3, "ok"⟩], []⟩
      42 42 ⟨7, some 3, none⟩ rfl).2.1⟩

/-- C7: when the latest heartbeat references an ad id that matches no Ad
row, `current_ad_for_company` does not raise: it returns success with the
online flag still computed from the heartbeat's age, a null current ad,
and the message "Unknown ad". -/
theorem dangling_ad_tolerated (db : DB) (now : ℚ) (cid sid : Nat)
    (scr : Screen) (hb : Heartbeat) (aid : Nat)
    (hs : findScreen db sid = some scr)
    (hl : latestHeartbeat db sid = some hb)
    (ha : hb.current_ad_id = some aid)
    (hd : findAd db aid = none) :
    current_ad_for_company db now cid sid =
      .ok (.obj [("screen_id", .num sid),
                 ("online", .bool (decide (now - hb.timestamp ≤ ONLINE_THRESHOLD))),
                 ("current_ad", .null),
                 ("message", .str "Unknown ad")]) := by
  simp [current_ad_for_company, hs, hl, ha, hd]

/-- C7 witness: screen 1's only heartbeat (age 10, hence online)
references ad 9 while the ads table is empty; the endpoint still answers
with current ad null and message "Unknown ad". -/
theorem dangling_ad_tolerated_witness :
    current_ad_for_company
        ⟨[⟨1, "S1", 1, none, "offline"⟩], [], [⟨1, 30, some 9, "ok"⟩], []⟩
        40 5 1 =
      .ok (.obj [("screen_id", .num 1),
                 ("online", .bool (decide ((40 : ℚ) - 30 ≤ ONLINE_THRESHOLD))),
                 ("current_ad", .null),
                 ("message", .str "Unknown ad")]) :=
  dangling_ad_tolerated
    ⟨[⟨1, "S1", 1, none, "offline"⟩], [], [⟨1, 30, some 9, "ok"⟩], []⟩
    40 5 1 ⟨1, "S1", 1, none, "offline"⟩ ⟨1, 30, some 9, "ok"⟩ 9 rfl rfl rfl rfl

/-- C4: with the screen existing, (a) the threshold constant is 120
seconds; (b) with no heartbeats the answer is offline, null current ad,
message "No heartbeats yet"; (c) with a latest heartbeat the reported
`online` flag is true exactly when `now - timestamp ≤ 120`, the threshold
inclusive; (d) whenever the latest heartbeat references an existing ad,
the ad summary is surfaced in the response independent of the online
flag — a stale ad is shown, not hidden, also when offline. -/
theorem online_threshold_spec (db : DB) (now : ℚ) (cid sid : Nat)
    (scr : Screen) (hs : findScreen db sid = some scr) :
    ONLINE_THRESHOLD = 120 ∧
    (latestHeartbeat db sid = none →
      current_ad_for_company db now cid sid =
        .ok (.obj [("screen_id", .num sid), ("online", .bool false),
                   ("current_ad", .null),
                   ("message", .str "No heartbeats yet")])) ∧
    (∀ hb r, latestHeartbeat db sid = some hb →
      current_ad_for_company db now cid sid = .ok r →
      r.getField "online" =
        some (.bool (decide (now - hb.timestamp ≤ ONLINE_THRESHOLD)))) ∧
    (∀ hb aid ad r, latestHeartbeat db sid = some hb →
      hb.current_ad_id = some aid → findAd db aid = some ad →
      current_ad_for_company db now cid sid = .ok r →
      r.getField "current_ad" =
        some (.obj [("id", .num ad.id), ("name", .str ad.name),
                    ("owner_company_id", .num ad.owner_company_id),
                    ("is_yours", .bool (ad.owner_company_id == cid))])) := by
  refine ⟨rfl, ?_, ?_, ?_⟩
  · intro h0
    simp [current_ad_for_company, hs, h0]
  · intro hb r hl hr
    cases haid : hb.current_ad_id with
    | none =>
      simp only [current_ad_for_company, hs, hl, haid, Except.ok.injEq] at hr
      subst hr
      simp [JVal.getField, List.lookup]
    | some aid =>
      cases hfa : findAd db aid with
      | none =>
        simp only [current_ad_for_company, hs, hl, haid, hfa,
          Except.ok.injEq] at hr
        subst hr
        simp [JVal.getField, List.lookup]
      | some ad =>
        simp only [current_ad_for_company, hs, hl, haid, hfa,
          Except.ok.injEq] at hr
        subst hr
        simp [JVal.getField, List.lookup]
  · intro hb aid ad r hl haid hfa hr
    simp only [current_ad_for_company, hs, hl, haid, hfa] at hr
    simp only [Except.ok.injEq] at hr
    subst hr
    simp [JVal.getField, List.lookup]

/-- C4 witness: screen 1's latest heartbeat is at time 0 and the query
time is exactly 120 seconds later: the boundary case, reported online
(inclusive threshold), with the heartbeat's ad (owned by company 5, the
requester) surfaced. -/
theorem online_threshold_spec_witness :
    (JVal.obj [("screen_id", .num 1), ("online", .bool true),
               ("current_ad", .obj [("id", .num 1), ("name", .str "A1"),
                  ("owner_company_id", .num 5), ("is_yours", .bool true)]),
               ("last_heartbeat_at", .num 0)]).getField "online" =
      some (.bool (decide ((120 : ℚ) - (0 : ℚ) ≤ ONLINE_THRESHOLD))) :=
  (online_threshold_spec
      ⟨[⟨1, "S1", 1, none, "offline"⟩], [⟨1, "A1", 5, none, none⟩],
       [⟨1, 0, some 1, "ok"⟩], []⟩
      120 5 1 ⟨1, "S1", 1, none, "offline"⟩ rfl).2.2.1
    ⟨1, 0, some 1, "ok"⟩
    (.obj [("screen_id", .num 1), ("online", .bool true),
           ("current_ad", .obj [("id", .num 1), ("name", .str "A1"),
              ("owner_company_id", .num 5), ("is_yours", .bool true)]),
           ("last_heartbeat_at", .num 0)])
    rfl (by norm_num [current_ad_for_company, findScreen, findAd,
          latestHeartbeat, ONLINE_THRESHOLD])

/-- C6: in every successful answer, when the latest heartbeat references
an existing ad the nested `is_yours` field is present and is true exactly
when that ad's `owner_company_id` equals the requesting company id (pure
equality); and when the answer carries no current ad (`current_ad` null),
no `is_yours` key exists anywhere — neither nested nor at top level — so
the field is absent rather than false. -/
theorem is_yours_attribution (db : DB) (now : ℚ) (cid sid : Nat) (r : JVal)
    (h : current_ad_for_company db now cid sid = .ok r) :
    (∀ hb aid ad, latestHeartbeat db sid = some hb →
      hb.current_ad_id = some aid → findAd db aid = some ad →
      nestedField r "current_ad" "is_yours" =
        some (.bool (ad.owner_company_id == cid))) ∧
    (r.getField "current_ad" = some .null →
      nestedField r "current_ad" "is_yours" = none ∧
      r.getField "is_yours" = none) := by
  cases hfs : findScreen db sid with
  | none => simp [current_ad_for_company, hfs] at h
  | some scr =>
    constructor
    · intro hb aid ad hl haid hfa
      simp only [current_ad_for_company, hfs, hl, haid, hfa,
        Except.ok.injEq] at h
      subst h
      simp [nestedField, JVal.getField, List.lookup]
    · intro hnull
      cases hl : latestHeartbeat db sid with
      | none =>
        simp only [current_ad_for_company, hfs, hl, Except.ok.injEq] at h
        subst h
        simp [nestedField, JVal.getField, List.lookup]
      | some hb =>
        cases haid : hb.current_ad_id with
        | none =>
          simp only [current_ad_for_company, hfs, hl, haid,
            Except.ok.injEq] at h
          subst h
          simp [nestedField, JVal.getField, List.lookup]
        | some aid =>
          cases hfa : findAd db aid with
          | none =>
            simp only [current_ad_for_company, hfs, hl, haid, hfa,
              Except.ok.injEq] at h
            subst h
            simp [nestedField, JVal.getField, List.lookup]
          | some ad =>
            simp only [current_ad_for_company, hfs, hl, haid, hfa,
              Except.ok.injEq] at h
            subst h
            simp [JVal.getField, List.lookup] at hnull

/-- C6 witness: company 5 asks about screen 1 whose current ad 1 is owned
by company 5: the nested `is_yours` field is present and true. -/
theorem is_yours_attribution_witness :
    nestedField
        (.obj [("screen_id", .num 1), ("online", .bool true),
               ("current_ad", .obj [("id", .num 1), ("name", .str "A1"),
                  ("owner_company_id", .num 5), ("is_yours", .bool true)]),
               ("last_heartbeat_at", .num 0)]) "current_ad" "is_yours" =
      some (.bool ((5 : Nat) == (5 : Nat))) :=
  (is_yours_attribution
      ⟨[⟨1, "S1", 1, none, "offline"⟩], [⟨1, "A1", 5, none, none⟩],
       [⟨1, 0, some 1, "ok"⟩], []⟩
      120 5 1
      (.obj [("screen_id", .num 1), ("online", .bool true),
             ("current_ad", .obj [("id", .num 1), ("name", .str "A1"),
                ("owner_company_id", .num 5), ("is_yours", .bool true)]),
             ("last_heartbeat_at", .num 0)])
      (by norm_num [current_ad_for_company, findScreen, findAd,
            latestHeartbeat, ONLINE_THRESHOLD])).1
    ⟨1, 0, some 1, "ok"⟩ 1 ⟨1, "A1", 5, none, none⟩ rfl rfl rfl

/-- C3, counterexample: for a screen with no heartbeats the response of
`current_ad_for_company` has no `last_heartbeat_at` key at all — the
output contract's third field is missing from that branch (and the spec's
contract has no `message` field), refuting "always contains all three
fields in every branch". -/
theorem output_contract_missing_field_cex :
    current_ad_for_company ⟨[⟨1, "S1", 1, none, "offline"⟩], [], [], []⟩ 0 7 1 =
      .ok (.obj [("screen_id", .num 1), ("online", .bool false),
                 ("current_ad", .null),
                 ("message", .str "No heartbeats yet")]) ∧
    (JVal.obj [("screen_id", .num 1), ("online", .bool false),
               ("current_ad", .null),
               ("message", .str "No heartbeats yet")]).getField
        "last_heartbeat_at" = none :=
  ⟨rfl, rfl⟩

/-- C3 (amended): every successful response contains `online` and
`current_ad`, but `last_heartbeat_at` is present exactly in the one branch
where the latest heartbeat exists, carries an ad reference, and that ad
exists; the no-heartbeat, no-ad-reference and unknown-ad branches omit it
(carrying a `message` instead). -/
theorem output_contract_fields (db : DB) (now : ℚ) (cid sid : Nat) (r : JVal)
    (h : current_ad_for_company db now cid sid = .ok r) :
    (r.getField "online").isSome ∧ (r.getField "current_ad").isSome ∧
    ((r.getField "last_heartbeat_at").isSome ↔
      ∃ hb aid ad, latestHeartbeat db sid = some hb ∧
        hb.current_ad_id = some aid ∧ findAd db aid = some ad) := by
  cases hfs : findScreen db sid with
  | none => simp [current_ad_for_company, hfs] at h
  | some scr =>
    cases hl : latestHeartbeat db sid with
    | none =>
      simp only [current_ad_for_company, hfs, hl, Except.ok.injEq] at h
      subst h
      simp [JVal.getField, List.lookup, hl]
    | some hb =>
      cases haid : hb.current_ad_id with
      | none =>
        simp only [current_ad_for_company, hfs, hl, haid, Except.ok.injEq] at h
        subst h
        simp [JVal.getField, List.lookup, hl, haid]
      | some aid =>
        cases hfa : findAd db aid with
        | none =>
          simp only [current_ad_for_company, hfs, hl, haid, hfa,
            Except.ok.injEq] at h
          subst h
          simp [JVal.getField, List.lookup, hl, haid, hfa]
        | some ad =>
          simp only [current_ad_for_company, hfs, hl, haid, hfa,
            Except.ok.injEq] at h
          subst h
          simp [JVal.getField, List.lookup, hl, haid, hfa]

/-- C3 witness: in the branch with an existing current ad, all three
contract fields are present, and `last_heartbeat_at` presence coincides
with that branch's conditions. -/
theorem output_contract_fields_witness :
    ((JVal.obj [("screen_id", .num 1), ("online", .bool true),
        ("current_ad", .obj [("id", .num 1), ("name", .str "A1"),
           ("owner_company_id", .num 5), ("is_yours", .bool true)]),
        ("last_heartbeat_at", .num 0)]).getField "online").isSome ∧
    ((JVal.obj [("screen_id", .num 1), ("online", .bool true),
        ("current_ad", .obj [("id", .num 1), ("name", .str "A1"),
           ("owner_company_id", .num 5), ("is_yours", .bool true)]),
        ("last_heartbeat_at", .num 0)]).getField "current_ad").isSome ∧
    (((JVal.obj [("screen_id", .num 1), ("online", .bool true),
        ("current_ad", .obj [("id", .num 1), ("name", .str "A1"),
           ("owner_company_id", .num 5), ("is_yours", .bool true)]),
        ("last_heartbeat_at", .num 0)]).getField "last_heartbeat_at").isSome ↔
      ∃ hb aid ad,
        latestHeartbeat
            ⟨[⟨1, "S1", 1, none, "offline"⟩], [⟨1, "A1", 5, none, none⟩],
             [⟨1, 0, some 1, "ok"⟩], []⟩ 1 = some hb ∧
        hb.current_ad_id = some aid ∧
        findAd ⟨[⟨1, "S1", 1, none, "offline"⟩], [⟨1, "A1", 5, none, none⟩],
             [⟨1, 0, some 1, "ok"⟩], []⟩ aid = some ad) :=
  output_contract_fields
    ⟨[⟨1, "S1", 1, none, "offline"⟩], [⟨1, "A1", 5, none, none⟩],
     [⟨1, 0, some 1, "ok"⟩], []⟩
    120 5 1
    (.obj [("screen_id", .num 1), ("online", .bool true),
           ("current_ad", .obj [("id", .num 1), ("name", .str "A1"),
              ("owner_company_id", .num 5), ("is_yours", .bool true)]),
           ("last_heartbeat_at", .num 0)])
    (by norm_num [current_ad_for_company, findScreen, findAd,
          latestHeartbeat, ONLINE_THRESHOLD])

theorem round2_zero : round2 0 = 0 := by
  norm_num [round2]

theorem uptime_percent_raw_bounds (db : DB) (sid : Nat)
    (window_minutes : ℕ) (now : ℚ) :
    0 ≤ uptime_percent_raw db sid window_minutes now ∧
    uptime_percent_raw db sid window_minutes now ≤ 100 := by
  unfold uptime_percent_raw
  cases hm : (heartbeatsInWindow db sid (now - window_minutes * 60) now).map
      (·.timestamp) with
  | nil =>
    dsimp only
    norm_num
  | cons t ts =>
    dsimp only
    exact ⟨le_max_left 0 _, max_le (by norm_num) (min_le_left _ _)⟩

/-- C5: the uptime figure reported for a screen over a window of `W`
minutes ending at `now`: it is 0 when no heartbeat falls in
`[now - W*60, now]`; otherwise it equals
`clamp(observed / (W*60) * 100, 0, 100)` rounded to two decimals, where
`observed` is the span between the first and last in-window heartbeat
timestamps; and the reported value always lies in `[0, 100]` however the
heartbeats are spaced. -/
theorem uptime_spec (db : DB) (sid : Nat) (window_minutes : ℕ) (now : ℚ)
    (_hW : 0 < window_minutes) :
    (heartbeatsInWindow db sid (now - window_minutes * 60) now = [] →
      uptime_percent db sid window_minutes now = 0) ∧
    (∀ t ts,
      (heartbeatsInWindow db sid (now - window_minutes * 60) now).map
          (·.timestamp) = t :: ts →
      uptime_percent db sid window_minutes now =
        round2 (max 0 (min 100
          ((maxTs t ts - minTs t ts) / (window_minutes * 60) * 100)))) ∧
    0 ≤ uptime_percent db sid window_minutes now ∧
    uptime_percent db sid window_minutes now ≤ 100 := by
  refine ⟨?_, ?_, ?_, ?_⟩
  · intro h0
    unfold uptime_percent uptime_percent_raw
    rw [h0]
    simpa using round2_zero
  · intro t ts hmap
    unfold uptime_percent uptime_percent_raw
    rw [hmap]
  · exact round2_nonneg _ (uptime_percent_raw_bounds db sid window_minutes now).1
  · exact round2_le_hundred _ (uptime_percent_raw_bounds db sid window_minutes now).2

/-- C5 witness: screen 1 sent heartbeats at times 100 and 3700; over the
60-minute window ending at 3700 the reported uptime is within bounds (it
is in fact 100, the two heartbeats spanning the whole window). -/
theorem uptime_spec_witness :
    (0 : ℚ) ≤ uptime_percent
        ⟨[⟨1, "S1", 1, none, "offline"⟩], [],
         [⟨1, 100, none, "ok"⟩, ⟨1, 3700, none, "ok"⟩], []⟩ 1 60 3700 ∧
    uptime_percent
        ⟨[⟨1, "S1", 1, none, "offline"⟩], [],
         [⟨1, 100, none, "ok"⟩, ⟨1, 3700, none, "ok"⟩], []⟩ 1 60 3700 ≤ 100 ∧
    uptime_percent
        ⟨[⟨1, "S1", 1, none, "offline"⟩], [],
         [⟨1, 100, none, "ok"⟩, ⟨1, 3700, none, "ok"⟩], []⟩ 1 60 3700 = 100 :=
  ⟨(uptime_spec ⟨[⟨1, "S1", 1, none, "offline"⟩], [],
      [⟨1, 100, none, "ok"⟩, ⟨1, 3700, none, "ok"⟩], []⟩ 1 60 3700
      (by norm_num)).2.2.1,
   (uptime_spec ⟨[⟨1, "S1", 1, none, "offline"⟩], [],
      [⟨1, 100, none, "ok"⟩, ⟨1, 3700, none, "ok"⟩], []⟩ 1 60 3700
      (by norm_num)).2.2.2,
   by norm_num [uptime_percent, uptime_percent_raw, heartbeatsInWindow,
        minTs, maxTs, round2]⟩

theorem plays_count_ignores_status_aux (l : List PlaybackEvent) (aid : Nat)
    (ws we : ℚ) (f : PlaybackEvent → String) :
    ((l.map (fun e => { e with status := f e })).filter
      (fun e => e.ad_id == aid && startedInWindow e ws we)).length =
    (l.filter (fun e => e.ad_id == aid && startedInWindow e ws we)).length := by
  induction l with
  | nil => rfl
  | cons e rest ih =>
    rw [List.map_cons, List.filter_cons, List.filter_cons]
    have hsame : ((({ e with status := f e } : PlaybackEvent).ad_id == aid)
        && startedInWindow { e with status := f e } ws we) =
        ((e.ad_id == aid) && startedInWindow e ws we) := rfl
    rw [hsame]
    split <;> simp [ih]

/-- C8: when the ad exists, `/api/ads/{ad_id}/metrics/today` reports
`plays_today` as the count of the ad's PlaybackEvents whose `started_at`
falls in the half-open UTC day `[start_of_day now, start_of_day now +
86400)` containing `now`; the count reads only `ad_id` and `started_at`,
so rewriting every event's status value never changes it (success and
failure count alike); the window is determined by `started_at` alone, so
an event is attributed to the day it started, not the day it ended. -/
theorem plays_count_spec (db : DB) (aid : Nat) (now : ℚ) (ad : Ad)
    (ha : findAd db aid = some ad) :
    ad_metrics_today db aid now =
      .ok (.obj [("ad_id", .num aid), ("name", .str ad.name),
                 ("plays_today", .num (plays_count db aid (start_of_day now)
                    (start_of_day now + 86400))),
                 ("day_start_utc", .num (start_of_day now))]) ∧
    plays_count db aid (start_of_day now) (start_of_day now + 86400) =
      (db.playback_events.filter (fun e => e.ad_id == aid &&
        startedInWindow e (start_of_day now) (start_of_day now + 86400))).length ∧
    (∀ f, plays_count (setStatuses f db) aid (start_of_day now)
        (start_of_day now + 86400) =
      plays_count db aid (start_of_day now) (start_of_day now + 86400)) := by
  refine ⟨?_, rfl, ?_⟩
  · simp [ad_metrics_today, ha]
  · intro f
    simpa [plays_count, setStatuses] using
      plays_count_ignores_status_aux db.playback_events aid
        (start_of_day now) (start_of_day now + 86400) f

/-- C8 witness: ad 1 has one event starting `2024-01-01T23:59:00Z`
(epoch 1704153540) and ending `2024-01-02T00:01:00Z` (epoch 1704153660).
Queried at `now` = 1704153550 (still Jan 1), the metrics endpoint applies,
the day window is `[1704067200, 1704153600)` and the event counts once
toward Jan 1 — while the Jan 2 window `[1704153600, 1704240000)` counts
it zero times even though it ended inside Jan 2. -/
theorem plays_count_spec_witness :
    ad_metrics_today
        ⟨[⟨1, "S1", 1, none, "offline"⟩], [⟨1, "A1", 5, none, none⟩], [],
         [⟨1, 1, some 1704153540, some 1704153660, "success"⟩]⟩ 1 1704153550 =
      .ok (.obj [("ad_id", .num 1), ("name", .str "A1"),
                 ("plays_today", .num (plays_count
                    ⟨[⟨1, "S1", 1, none, "offline"⟩], [⟨1, "A1", 5, none, none⟩],
                     [], [⟨1, 1, some 1704153540, some 1704153660, "success"⟩]⟩
                    1 (start_of_day 1704153550)
                    (start_of_day 1704153550 + 86400))),
                 ("day_start_utc", .num (start_of_day 1704153550))]) ∧
    plays_count
        ⟨[⟨1, "S1", 1, none, "offline"⟩], [⟨1, "A1", 5, none, none⟩], [],
         [⟨1, 1, some 1704153540, some 1704153660, "success"⟩]⟩
        1 (start_of_day 1704153550) (start_of_day 1704153550 + 86400) = 1 ∧
    plays_count
        ⟨[⟨1, "S1", 1, none, "offline"⟩], [⟨1, "A1", 5, none, none⟩], [],
         [⟨1, 1, some 1704153540, some 1704153660, "success"⟩]⟩
        1 1704153600 1704240000 = 0 :=
  ⟨(plays_count_spec
      ⟨[⟨1, "S1", 1, none, "offline"⟩], [⟨1, "A1", 5, none, none⟩], [],
       [⟨1, 1, some 1704153540, some 1704153660, "success"⟩]⟩
      1 1704153550 ⟨1, "A1", 5, none, none⟩ rfl).1,
   by norm_num [plays_count, start_of_day, startedInWindow],
   by norm_num [plays_count, startedInWindow]⟩

end AdMonitor
